import Mathlib

/-!
Shallow embedding of `src/lib.rs` of the csgrs-egui-wasm-example viewer.

The viewer keeps a rotation quaternion, a 2D pan translation, a zoom
scalar and a fixed list of 3D edges (`CsgrsApp`).  Each frame, pointer
input rotates or pans, scroll zooms (`CsgrsApp.update`, lines 59-78),
and every edge is projected to a screen segment (`draw_csgrs_cube` and
its inner `project` closure, lines 87-104).  Machine `f32` arithmetic is
embedded as exact real arithmetic.
-/

/-- 3D vector with real coordinates (embeds `glam::Vec3`). -/
@[ext]
structure Vec3 where
  x : ℝ
  y : ℝ
  z : ℝ

/-- 2D vector with real coordinates (embeds `egui::Vec2`). -/
@[ext]
structure Vec2 where
  x : ℝ
  y : ℝ

instance : Add Vec2 := ⟨fun a b => ⟨a.x + b.x, a.y + b.y⟩⟩

theorem Vec2.add_def (a b : Vec2) : a + b = ⟨a.x + b.x, a.y + b.y⟩ := rfl

/-- Quaternion with real components (embeds `glam::Quat`, stored w,x,y,z). -/
@[ext]
structure Quat where
  w : ℝ
  x : ℝ
  y : ℝ
  z : ℝ

/-- Hamilton product, as implemented by `glam::Quat::mul_quat`. -/
def Quat.mul (p q : Quat) : Quat :=
  ⟨p.w * q.w - p.x * q.x - p.y * q.y - p.z * q.z,
   p.w * q.x + p.x * q.w + p.y * q.z - p.z * q.y,
   p.w * q.y - p.x * q.z + p.y * q.w + p.z * q.x,
   p.w * q.z + p.x * q.y - p.y * q.x + p.z * q.w⟩

/-- `glam::Quat::IDENTITY`. -/
def Quat.identity : Quat := ⟨1, 0, 0, 0⟩

/-- `glam::Quat::from_rotation_y(angle)` = `(cos(a/2), (0, sin(a/2), 0))`. -/
noncomputable def Quat.fromRotationY (a : ℝ) : Quat :=
  ⟨Real.cos (a / 2), 0, Real.sin (a / 2), 0⟩

/-- `glam::Quat::from_rotation_x(angle)` = `(cos(a/2), (sin(a/2), 0, 0))`. -/
noncomputable def Quat.fromRotationX (a : ℝ) : Quat :=
  ⟨Real.cos (a / 2), Real.sin (a / 2), 0, 0⟩

/-- Squared quaternion norm. -/
def Quat.norm2 (q : Quat) : ℝ := q.w ^ 2 + q.x ^ 2 + q.y ^ 2 + q.z ^ 2

/-- Rotation of a vector by a quaternion, as implemented by
`glam::Quat::mul_vec3`: `v*(w^2-|b|^2) + b*(2(v.b)) + (b x v)*(2w)`
for `b` the vector part. -/
def Quat.rotate (q : Quat) (v : Vec3) : Vec3 :=
  let b2 := q.x * q.x + q.y * q.y + q.z * q.z
  let d := v.x * q.x + v.y * q.y + v.z * q.z
  ⟨v.x * (q.w * q.w - b2) + q.x * (d * 2) + (q.y * v.z - q.z * v.y) * (q.w * 2),
   v.y * (q.w * q.w - b2) + q.y * (d * 2) + (q.z * v.x - q.x * v.z) * (q.w * 2),
   v.z * (q.w * q.w - b2) + q.z * (d * 2) + (q.x * v.y - q.y * v.x) * (q.w * 2)⟩

/-- The application state, `struct CsgrsApp` (lib.rs lines 6-12). -/
@[ext]
structure CsgrsApp where
  rotation : Quat
  translation : Vec2
  zoom : ℝ
  edges : List (Vec3 × Vec3)

/-- `Rust f32::clamp(min, max)`: `min` if below, `max` if above, else the value
(for `min <= max`, which holds at the single call site `clamp(0.2, 5.0)`). -/
noncomputable def rustClamp (v lo hi : ℝ) : ℝ := min (max v lo) hi

/-- The per-frame pointer/scroll input consumed by `CsgrsApp::update`:
`response.dragged()`, `input.pointer.primary_down()`,
`input.pointer.secondary_down()`, `response.drag_delta()` and
`input.raw_scroll_delta.y`. -/
structure FrameInput where
  dragged : Bool
  primaryDown : Bool
  secondaryDown : Bool
  dragDelta : Vec2
  scrollDeltaY : ℝ

/-- The state mutation of one frame of `CsgrsApp::update`
(lib.rs lines 59-78): left-drag rotates, else right-drag pans,
then a nonzero scroll (`scroll.abs() > 0.0`) zooms with clamping. -/
noncomputable def CsgrsApp.update (s : CsgrsApp) (i : FrameInput) : CsgrsApp :=
  let s1 :=
    if i.dragged then
      if i.primaryDown then
        let yaw := i.dragDelta.x * 0.01
        let pitch := i.dragDelta.y * 0.01
        let r := Quat.mul (Quat.mul (Quat.fromRotationY yaw)
          (Quat.fromRotationX pitch)) s.rotation
        { s with rotation := r }
      else if i.secondaryDown then
        { s with translation := s.translation + i.dragDelta }
      else s
    else s
  if 0 < |i.scrollDeltaY| then
    { s1 with zoom := rustClamp (s1.zoom * (1 + i.scrollDeltaY * 0.001)) 0.2 5.0 }
  else s1

/-- The state built by `CsgrsApp::new` (lib.rs lines 42-47); the edge list,
produced by the external csgrs geometry provider, is a parameter. -/
def CsgrsApp.new (edges : List (Vec3 × Vec3)) : CsgrsApp :=
  ⟨Quat.identity, ⟨0, 0⟩, 1, edges⟩

/-- The derived `Default` of `CsgrsApp` (lib.rs line 6): each field takes its
library default — `glam::Quat` defaults to `IDENTITY`, `egui::Vec2` to `ZERO`,
`f32` to `0.0` and `Vec` to empty. -/
def CsgrsApp.default : CsgrsApp := ⟨Quat.identity, ⟨0, 0⟩, 0, []⟩

/-- The canvas rectangle, reduced to what `draw_csgrs_cube` reads of
`egui::Rect`: its center, width and height. -/
structure Rect where
  center : Vec2
  width : ℝ
  height : ℝ

/-- The `project` closure of `draw_csgrs_cube` (lib.rs lines 94-100):
rotate, perspective-divide with `dist = 4.0`, scale by
`min(width, height) * 0.25 * zoom`, flip Y, pan, recenter. -/
noncomputable def project (app : CsgrsApp) (rect : Rect) (v : Vec3) : Vec2 :=
  let size := min rect.width rect.height * 0.25 * app.zoom
  let dist : ℝ := 4.0
  let rotated := app.rotation.rotate v
  let scale := dist / (dist - rotated.z)
  let p : Vec2 := ⟨rotated.x * scale, rotated.y * scale⟩
  rect.center + (Vec2.mk (p.x * size) (-p.y * size) + app.translation)

/-- The screen segments painted by `draw_csgrs_cube` (lib.rs lines 102-104):
one per edge, in edge-list order. -/
noncomputable def draw_csgrs_cube (rect : Rect) (app : CsgrsApp) :
    List (Vec2 × Vec2) :=
  app.edges.map (fun e => (project app rect e.1, project app rect e.2))

/-- Modelled from the spec, section 4.2: the projector algorithm as the spec
words it step by step — `rotated = Orientation.rotate(v)`,
`scale = dist / (dist - rotated.z)` with `dist = 4.0`,
`projected = (rotated.x * scale, rotated.y * scale)`,
`size = min(width, height) * 0.25 * ZoomFactor`,
`screen_offset = (projected.x * size, -projected.y * size) + PanOffset`,
`screen_point = canvas_rect.center + screen_offset`. -/
noncomputable def specProject (app : CsgrsApp) (rect : Rect) (v : Vec3) : Vec2 :=
  let rotated := app.rotation.rotate v
  let scale := (4.0 : ℝ) / (4.0 - rotated.z)
  let projected : Vec2 := ⟨rotated.x * scale, rotated.y * scale⟩
  let size := min rect.width rect.height * 0.25 * app.zoom
  let screenOffset : Vec2 :=
    Vec2.mk (projected.x * size) (-projected.y * size) + app.translation
  rect.center + screenOffset

/-!
### Edge extraction and deduplication (`CsgrsApp::new`, lib.rs lines 17-40)

The snapping/dedup pipeline works on exact rationals; a snapped vertex key
is a triple of integers, as the `(i64, i64, i64)` of the source.
-/

/-- Integer key of a snapped vertex, the `(i64, i64, i64)` of lib.rs line 17. -/
abbrev Key := ℤ × ℤ × ℤ

/-- A vertex position of the input mesh, with exact rational coordinates. -/
abbrev QVec := ℚ × ℚ × ℚ

/-- `let snap = |p| (*p * 1e5).round() as i64` (lib.rs line 24). -/
def snap (p : ℚ) : ℤ := round (p * 100000)

/-- Snap all three coordinates of a vertex (lib.rs lines 26-27). -/
def snapVec (p : QVec) : Key := (snap p.1, snap p.2.1, snap p.2.2)

/-- Rust derived lexicographic `<` on `(i64, i64, i64)`. -/
def keyLt (a b : Key) : Prop :=
  a.1 < b.1 ∨ (a.1 = b.1 ∧ (a.2.1 < b.2.1 ∨ (a.2.1 = b.2.1 ∧ a.2.2 < b.2.2)))

instance (a b : Key) : Decidable (keyLt a b) := by unfold keyLt; infer_instance

/-- Canonical ordered key pair of an edge:
`if ka < kb { (ka, kb) } else { (kb, ka) }` (lib.rs lines 25-29). -/
def canonKey (a b : QVec) : Key × Key :=
  let ka := snapVec a
  let kb := snapVec b
  if keyLt ka kb then (ka, kb) else (kb, ka)

/-- Modelled from the spec: `poly.edges()` of the external csgrs library,
"extracting every polygon's boundary edges" — the consecutive vertex pairs
of the polygon's vertex cycle, last wrapping around to first. -/
def polyEdges (vs : List QVec) : List (QVec × QVec) :=
  vs.zip (vs.rotate 1)

/-- The deduplicated set of canonical edge keys accumulated in the `uniq`
hash set of `CsgrsApp::new` (lib.rs lines 17-32). -/
def edgeSet (mesh : List (List QVec)) : Finset (Key × Key) :=
  ((mesh.map polyEdges).flatten.map (fun e => canonKey e.1 e.2)).toFinset

/-- The golden ratio at the resolution of the 5-decimal snapping grid. -/
def phiQ : ℚ := 161803 / 100000

/-- Modelled from the spec: the 12 vertices of the icosahedron mesh the
external geometry provider supplies at startup — the standard icosahedron
construction on the cyclic permutations of `(0, ±1, ±φ)`; the radius
parameter only rescales every key, so it is taken as 1. -/
def icosaVerts : List QVec :=
  [(-1, phiQ, 0), (1, phiQ, 0), (-1, -phiQ, 0), (1, -phiQ, 0),
   (0, -1, phiQ), (0, 1, phiQ), (0, -1, -phiQ), (0, 1, -phiQ),
   (phiQ, 0, -1), (phiQ, 0, 1), (-phiQ, 0, -1), (-phiQ, 0, 1)]

/-- A triangular face given by three vertex indices into `icosaVerts`. -/
def face (a b c : Nat) : List QVec :=
  [icosaVerts.getD a (0, 0, 0), icosaVerts.getD b (0, 0, 0),
   icosaVerts.getD c (0, 0, 0)]

/-- Modelled from the spec: the 20 triangular faces of the icosahedron
("icosahedron: 30 edges from 20 triangular faces"). -/
def icosaMesh : List (List QVec) :=
  [face 0 11 5, face 0 5 1, face 0 1 7, face 0 7 10, face 0 10 11,
   face 1 5 9, face 5 11 4, face 11 10 2, face 10 7 6, face 7 1 8,
   face 3 9 4, face 3 4 2, face 3 2 6, face 3 6 8, face 3 8 9,
   face 4 9 5, face 2 4 11, face 6 2 10, face 8 6 7, face 9 8 1]


/-!
### Concrete snapped keys of the icosahedron vertices
-/

/-- Snapped key of vertex 0. -/
theorem sv0 : snapVec (-1, phiQ, 0) = (-100000, 161803, 0) := by
  norm_num [snapVec, snap, phiQ, round_eq]

/-- Snapped key of vertex 1. -/
theorem sv1 : snapVec (1, phiQ, 0) = (100000, 161803, 0) := by
  norm_num [snapVec, snap, phiQ, round_eq]

/-- Snapped key of vertex 2. -/
theorem sv2 : snapVec (-1, -phiQ, 0) = (-100000, -161803, 0) := by
  norm_num [snapVec, snap, phiQ, round_eq]

/-- Snapped key of vertex 3. -/
theorem sv3 : snapVec (1, -phiQ, 0) = (100000, -161803, 0) := by
  norm_num [snapVec, snap, phiQ, round_eq]

/-- Snapped key of vertex 4. -/
theorem sv4 : snapVec (0, -1, phiQ) = (0, -100000, 161803) := by
  norm_num [snapVec, snap, phiQ, round_eq]

/-- Snapped key of vertex 5. -/
theorem sv5 : snapVec (0, 1, phiQ) = (0, 100000, 161803) := by
  norm_num [snapVec, snap, phiQ, round_eq]

/-- Snapped key of vertex 6. -/
theorem sv6 : snapVec (0, -1, -phiQ) = (0, -100000, -161803) := by
  norm_num [snapVec, snap, phiQ, round_eq]

/-- Snapped key of vertex 7. -/
theorem sv7 : snapVec (0, 1, -phiQ) = (0, 100000, -161803) := by
  norm_num [snapVec, snap, phiQ, round_eq]

/-- Snapped key of vertex 8. -/
theorem sv8 : snapVec (phiQ, 0, -1) = (161803, 0, -100000) := by
  norm_num [snapVec, snap, phiQ, round_eq]

/-- Snapped key of vertex 9. -/
theorem sv9 : snapVec (phiQ, 0, 1) = (161803, 0, 100000) := by
  norm_num [snapVec, snap, phiQ, round_eq]

/-- Snapped key of vertex 10. -/
theorem sv10 : snapVec (-phiQ, 0, -1) = (-161803, 0, -100000) := by
  norm_num [snapVec, snap, phiQ, round_eq]

/-- Snapped key of vertex 11. -/
theorem sv11 : snapVec (-phiQ, 0, 1) = (-161803, 0, 100000) := by
  norm_num [snapVec, snap, phiQ, round_eq]
/-- Edge keys contributed by face (0, 11, 5) of the icosahedron. -/
theorem faceKeys0 : (polyEdges (face 0 11 5)).map (fun e => canonKey e.1 e.2) =
    [((-161803, 0, 100000), (-100000, 161803, 0)),
     ((-161803, 0, 100000), (0, 100000, 161803)),
     ((-100000, 161803, 0), (0, 100000, 161803))] := by
  norm_num [face, icosaVerts, polyEdges, List.rotate, canonKey, keyLt, sv0, sv5, sv11]

/-- Edge keys contributed by face (0, 5, 1) of the icosahedron. -/
theorem faceKeys1 : (polyEdges (face 0 5 1)).map (fun e => canonKey e.1 e.2) =
    [((-100000, 161803, 0), (0, 100000, 161803)),
     ((0, 100000, 161803), (100000, 161803, 0)),
     ((-100000, 161803, 0), (100000, 161803, 0))] := by
  norm_num [face, icosaVerts, polyEdges, List.rotate, canonKey, keyLt, sv0, sv1, sv5]

/-- Edge keys contributed by face (0, 1, 7) of the icosahedron. -/
theorem faceKeys2 : (polyEdges (face 0 1 7)).map (fun e => canonKey e.1 e.2) =
    [((-100000, 161803, 0), (100000, 161803, 0)),
     ((0, 100000, -161803), (100000, 161803, 0)),
     ((-100000, 161803, 0), (0, 100000, -161803))] := by
  norm_num [face, icosaVerts, polyEdges, List.rotate, canonKey, keyLt, sv0, sv1, sv7]

/-- Edge keys contributed by face (0, 7, 10) of the icosahedron. -/
theorem faceKeys3 : (polyEdges (face 0 7 10)).map (fun e => canonKey e.1 e.2) =
    [((-100000, 161803, 0), (0, 100000, -161803)),
     ((-161803, 0, -100000), (0, 100000, -161803)),
     ((-161803, 0, -100000), (-100000, 161803, 0))] := by
  norm_num [face, icosaVerts, polyEdges, List.rotate, canonKey, keyLt, sv0, sv7, sv10]

/-- Edge keys contributed by face (0, 10, 11) of the icosahedron. -/
theorem faceKeys4 : (polyEdges (face 0 10 11)).map (fun e => canonKey e.1 e.2) =
    [((-161803, 0, -100000), (-100000, 161803, 0)),
     ((-161803, 0, -100000), (-161803, 0, 100000)),
     ((-161803, 0, 100000), (-100000, 161803, 0))] := by
  norm_num [face, icosaVerts, polyEdges, List.rotate, canonKey, keyLt, sv0, sv10, sv11]

/-- Edge keys contributed by face (1, 5, 9) of the icosahedron. -/
theorem faceKeys5 : (polyEdges (face 1 5 9)).map (fun e => canonKey e.1 e.2) =
    [((0, 100000, 161803), (100000, 161803, 0)),
     ((0, 100000, 161803), (161803, 0, 100000)),
     ((100000, 161803, 0), (161803, 0, 100000))] := by
  norm_num [face, icosaVerts, polyEdges, List.rotate, canonKey, keyLt, sv1, sv5, sv9]

/-- Edge keys contributed by face (5, 11, 4) of the icosahedron. -/
theorem faceKeys6 : (polyEdges (face 5 11 4)).map (fun e => canonKey e.1 e.2) =
    [((-161803, 0, 100000), (0, 100000, 161803)),
     ((-161803, 0, 100000), (0, -100000, 161803)),
     ((0, -100000, 161803), (0, 100000, 161803))] := by
  norm_num [face, icosaVerts, polyEdges, List.rotate, canonKey, keyLt, sv4, sv5, sv11]

/-- Edge keys contributed by face (11, 10, 2) of the icosahedron. -/
theorem faceKeys7 : (polyEdges (face 11 10 2)).map (fun e => canonKey e.1 e.2) =
    [((-161803, 0, -100000), (-161803, 0, 100000)),
     ((-161803, 0, -100000), (-100000, -161803, 0)),
     ((-161803, 0, 100000), (-100000, -161803, 0))] := by
  norm_num [face, icosaVerts, polyEdges, List.rotate, canonKey, keyLt, sv2, sv10, sv11]

/-- Edge keys contributed by face (10, 7, 6) of the icosahedron. -/
theorem faceKeys8 : (polyEdges (face 10 7 6)).map (fun e => canonKey e.1 e.2) =
    [((-161803, 0, -100000), (0, 100000, -161803)),
     ((0, -100000, -161803), (0, 100000, -161803)),
     ((-161803, 0, -100000), (0, -100000, -161803))] := by
  norm_num [face, icosaVerts, polyEdges, List.rotate, canonKey, keyLt, sv6, sv7, sv10]

/-- Edge keys contributed by face (7, 1, 8) of the icosahedron. -/
theorem faceKeys9 : (polyEdges (face 7 1 8)).map (fun e => canonKey e.1 e.2) =
    [((0, 100000, -161803), (100000, 161803, 0)),
     ((100000, 161803, 0), (161803, 0, -100000)),
     ((0, 100000, -161803), (161803, 0, -100000))] := by
  norm_num [face, icosaVerts, polyEdges, List.rotate, canonKey, keyLt, sv1, sv7, sv8]

/-- Edge keys contributed by face (3, 9, 4) of the icosahedron. -/
theorem faceKeys10 : (polyEdges (face 3 9 4)).map (fun e => canonKey e.1 e.2) =
    [((100000, -161803, 0), (161803, 0, 100000)),
     ((0, -100000, 161803), (161803, 0, 100000)),
     ((0, -100000, 161803), (100000, -161803, 0))] := by
  norm_num [face, icosaVerts, polyEdges, List.rotate, canonKey, keyLt, sv3, sv4, sv9]

/-- Edge keys contributed by face (3, 4, 2) of the icosahedron. -/
theorem faceKeys11 : (polyEdges (face 3 4 2)).map (fun e => canonKey e.1 e.2) =
    [((0, -100000, 161803), (100000, -161803, 0)),
     ((-100000, -161803, 0), (0, -100000, 161803)),
     ((-100000, -161803, 0), (100000, -161803, 0))] := by
  norm_num [face, icosaVerts, polyEdges, List.rotate, canonKey, keyLt, sv2, sv3, sv4]

/-- Edge keys contributed by face (3, 2, 6) of the icosahedron. -/
theorem faceKeys12 : (polyEdges (face 3 2 6)).map (fun e => canonKey e.1 e.2) =
    [((-100000, -161803, 0), (100000, -161803, 0)),
     ((-100000, -161803, 0), (0, -100000, -161803)),
     ((0, -100000, -161803), (100000, -161803, 0))] := by
  norm_num [face, icosaVerts, polyEdges, List.rotate, canonKey, keyLt, sv2, sv3, sv6]

/-- Edge keys contributed by face (3, 6, 8) of the icosahedron. -/
theorem faceKeys13 : (polyEdges (face 3 6 8)).map (fun e => canonKey e.1 e.2) =
    [((0, -100000, -161803), (100000, -161803, 0)),
     ((0, -100000, -161803), (161803, 0, -100000)),
     ((100000, -161803, 0), (161803, 0, -100000))] := by
  norm_num [face, icosaVerts, polyEdges, List.rotate, canonKey, keyLt, sv3, sv6, sv8]

/-- Edge keys contributed by face (3, 8, 9) of the icosahedron. -/
theorem faceKeys14 : (polyEdges (face 3 8 9)).map (fun e => canonKey e.1 e.2) =
    [((100000, -161803, 0), (161803, 0, -100000)),
     ((161803, 0, -100000), (161803, 0, 100000)),
     ((100000, -161803, 0), (161803, 0, 100000))] := by
  norm_num [face, icosaVerts, polyEdges, List.rotate, canonKey, keyLt, sv3, sv8, sv9]

/-- Edge keys contributed by face (4, 9, 5) of the icosahedron. -/
theorem faceKeys15 : (polyEdges (face 4 9 5)).map (fun e => canonKey e.1 e.2) =
    [((0, -100000, 161803), (161803, 0, 100000)),
     ((0, 100000, 161803), (161803, 0, 100000)),
     ((0, -100000, 161803), (0, 100000, 161803))] := by
  norm_num [face, icosaVerts, polyEdges, List.rotate, canonKey, keyLt, sv4, sv5, sv9]

/-- Edge keys contributed by face (2, 4, 11) of the icosahedron. -/
theorem faceKeys16 : (polyEdges (face 2 4 11)).map (fun e => canonKey e.1 e.2) =
    [((-100000, -161803, 0), (0, -100000, 161803)),
     ((-161803, 0, 100000), (0, -100000, 161803)),
     ((-161803, 0, 100000), (-100000, -161803, 0))] := by
  norm_num [face, icosaVerts, polyEdges, List.rotate, canonKey, keyLt, sv2, sv4, sv11]

/-- Edge keys contributed by face (6, 2, 10) of the icosahedron. -/
theorem faceKeys17 : (polyEdges (face 6 2 10)).map (fun e => canonKey e.1 e.2) =
    [((-100000, -161803, 0), (0, -100000, -161803)),
     ((-161803, 0, -100000), (-100000, -161803, 0)),
     ((-161803, 0, -100000), (0, -100000, -161803))] := by
  norm_num [face, icosaVerts, polyEdges, List.rotate, canonKey, keyLt, sv2, sv6, sv10]

/-- Edge keys contributed by face (8, 6, 7) of the icosahedron. -/
theorem faceKeys18 : (polyEdges (face 8 6 7)).map (fun e => canonKey e.1 e.2) =
    [((0, -100000, -161803), (161803, 0, -100000)),
     ((0, -100000, -161803), (0, 100000, -161803)),
     ((0, 100000, -161803), (161803, 0, -100000))] := by
  norm_num [face, icosaVerts, polyEdges, List.rotate, canonKey, keyLt, sv6, sv7, sv8]

/-- Edge keys contributed by face (9, 8, 1) of the icosahedron. -/
theorem faceKeys19 : (polyEdges (face 9 8 1)).map (fun e => canonKey e.1 e.2) =
    [((161803, 0, -100000), (161803, 0, 100000)),
     ((100000, 161803, 0), (161803, 0, -100000)),
     ((100000, 161803, 0), (161803, 0, 100000))] := by
  norm_num [face, icosaVerts, polyEdges, List.rotate, canonKey, keyLt, sv1, sv8, sv9]

/-- The 60 canonical edge keys of the icosahedron mesh, face by face. -/
def icosaKeys : List (Key × Key) :=
  [((-161803, 0, 100000), (-100000, 161803, 0)),
   ((-161803, 0, 100000), (0, 100000, 161803)),
   ((-100000, 161803, 0), (0, 100000, 161803)),
   ((-100000, 161803, 0), (0, 100000, 161803)),
   ((0, 100000, 161803), (100000, 161803, 0)),
   ((-100000, 161803, 0), (100000, 161803, 0)),
   ((-100000, 161803, 0), (100000, 161803, 0)),
   ((0, 100000, -161803), (100000, 161803, 0)),
   ((-100000, 161803, 0), (0, 100000, -161803)),
   ((-100000, 161803, 0), (0, 100000, -161803)),
   ((-161803, 0, -100000), (0, 100000, -161803)),
   ((-161803, 0, -100000), (-100000, 161803, 0)),
   ((-161803, 0, -100000), (-100000, 161803, 0)),
   ((-161803, 0, -100000), (-161803, 0, 100000)),
   ((-161803, 0, 100000), (-100000, 161803, 0)),
   ((0, 100000, 161803), (100000, 161803, 0)),
   ((0, 100000, 161803), (161803, 0, 100000)),
   ((100000, 161803, 0), (161803, 0, 100000)),
   ((-161803, 0, 100000), (0, 100000, 161803)),
   ((-161803, 0, 100000), (0, -100000, 161803)),
   ((0, -100000, 161803), (0, 100000, 161803)),
   ((-161803, 0, -100000), (-161803, 0, 100000)),
   ((-161803, 0, -100000), (-100000, -161803, 0)),
   ((-161803, 0, 100000), (-100000, -161803, 0)),
   ((-161803, 0, -100000), (0, 100000, -161803)),
   ((0, -100000, -161803), (0, 100000, -161803)),
   ((-161803, 0, -100000), (0, -100000, -161803)),
   ((0, 100000, -161803), (100000, 161803, 0)),
   ((100000, 161803, 0), (161803, 0, -100000)),
   ((0, 100000, -161803), (161803, 0, -100000)),
   ((100000, -161803, 0), (161803, 0, 100000)),
   ((0, -100000, 161803), (161803, 0, 100000)),
   ((0, -100000, 161803), (100000, -161803, 0)),
   ((0, -100000, 161803), (100000, -161803, 0)),
   ((-100000, -161803, 0), (0, -100000, 161803)),
   ((-100000, -161803, 0), (100000, -161803, 0)),
   ((-100000, -161803, 0), (100000, -161803, 0)),
   ((-100000, -161803, 0), (0, -100000, -161803)),
   ((0, -100000, -161803), (100000, -161803, 0)),
   ((0, -100000, -161803), (100000, -161803, 0)),
   ((0, -100000, -161803), (161803, 0, -100000)),
   ((100000, -161803, 0), (161803, 0, -100000)),
   ((100000, -161803, 0), (161803, 0, -100000)),
   ((161803, 0, -100000), (161803, 0, 100000)),
   ((100000, -161803, 0), (161803, 0, 100000)),
   ((0, -100000, 161803), (161803, 0, 100000)),
   ((0, 100000, 161803), (161803, 0, 100000)),
   ((0, -100000, 161803), (0, 100000, 161803)),
   ((-100000, -161803, 0), (0, -100000, 161803)),
   ((-161803, 0, 100000), (0, -100000, 161803)),
   ((-161803, 0, 100000), (-100000, -161803, 0)),
   ((-100000, -161803, 0), (0, -100000, -161803)),
   ((-161803, 0, -100000), (-100000, -161803, 0)),
   ((-161803, 0, -100000), (0, -100000, -161803)),
   ((0, -100000, -161803), (161803, 0, -100000)),
   ((0, -100000, -161803), (0, 100000, -161803)),
   ((0, 100000, -161803), (161803, 0, -100000)),
   ((161803, 0, -100000), (161803, 0, 100000)),
   ((100000, 161803, 0), (161803, 0, -100000)),
   ((100000, 161803, 0), (161803, 0, 100000))]

/-- The edge-key stream of the icosahedron mesh evaluates, face by face, to
the explicit 60-entry key list `icosaKeys`. -/
theorem icosaKeys_eval :
    ((icosaMesh.map polyEdges).flatten.map (fun e => canonKey e.1 e.2)) = icosaKeys := by
  simp only [icosaMesh, List.map_cons, List.map_nil, List.flatten_cons,
    List.flatten_nil, List.map_append, faceKeys0, faceKeys1, faceKeys2,
    faceKeys3, faceKeys4, faceKeys5, faceKeys6, faceKeys7, faceKeys8,
    faceKeys9, faceKeys10, faceKeys11, faceKeys12, faceKeys13, faceKeys14,
    faceKeys15, faceKeys16, faceKeys17, faceKeys18, faceKeys19, icosaKeys,
    List.cons_append, List.nil_append, List.append_nil]

/-- The deduplicated edge set of the icosahedron mesh is the set of the 60
listed keys. -/
theorem edgeSet_icosa : edgeSet icosaMesh = icosaKeys.toFinset := by
  unfold edgeSet
  rw [icosaKeys_eval]

/-!
### Quaternion algebra lemmas
-/

/-- Rotating by the identity quaternion is the identity map. -/
theorem Quat.rotate_identity (v : Vec3) : Quat.identity.rotate v = v := by
  obtain ⟨vx, vy, vz⟩ := v
  simp only [Quat.rotate, Quat.identity, Vec3.mk.injEq]
  norm_num

/-- The Hamilton product is associative. -/
theorem Quat.mul_assoc (p q r : Quat) :
    Quat.mul (Quat.mul p q) r = Quat.mul p (Quat.mul q r) := by
  obtain ⟨a, b, c, d⟩ := p
  obtain ⟨e, f, g, h⟩ := q
  obtain ⟨i, j, k, l⟩ := r
  simp only [Quat.mul, Quat.mk.injEq]
  refine ⟨by ring, by ring, by ring, by ring⟩

/-- The identity quaternion is a left unit for the Hamilton product. -/
theorem Quat.identity_mul (q : Quat) : Quat.mul Quat.identity q = q := by
  obtain ⟨a, b, c, d⟩ := q
  simp only [Quat.mul, Quat.identity, Quat.mk.injEq]
  refine ⟨by ring, by ring, by ring, by ring⟩

/-- The squared norm is multiplicative over the Hamilton product. -/
theorem Quat.norm2_mul (p q : Quat) :
    (Quat.mul p q).norm2 = p.norm2 * q.norm2 := by
  obtain ⟨a, b, c, d⟩ := p
  obtain ⟨e, f, g, h⟩ := q
  simp only [Quat.mul, Quat.norm2]
  ring

/-- A rotation about the Y axis is a unit quaternion. -/
theorem Quat.norm2_fromRotationY (a : ℝ) : (Quat.fromRotationY a).norm2 = 1 := by
  simp only [Quat.fromRotationY, Quat.norm2]
  rw [← Real.sin_sq_add_cos_sq (a / 2)]
  ring

/-- A rotation about the X axis is a unit quaternion. -/
theorem Quat.norm2_fromRotationX (a : ℝ) : (Quat.fromRotationX a).norm2 = 1 := by
  simp only [Quat.fromRotationX, Quat.norm2]
  rw [← Real.sin_sq_add_cos_sq (a / 2)]
  ring

/-- A zero-angle X rotation is the identity quaternion. -/
theorem Quat.fromRotationX_zero : Quat.fromRotationX 0 = Quat.identity := by
  simp [Quat.fromRotationX, Quat.identity]

/-- Y-axis rotations compose additively. -/
theorem Quat.fromRotationY_mul (a b : ℝ) :
    Quat.mul (Quat.fromRotationY a) (Quat.fromRotationY b) =
      Quat.fromRotationY (a + b) := by
  simp only [Quat.mul, Quat.fromRotationY, Quat.mk.injEq]
  have h2 : (a + b) / 2 = a / 2 + b / 2 := by ring
  rw [h2, Real.cos_add, Real.sin_add]
  refine ⟨by ring, by ring, by ring, by ring⟩

/-!
### Shape lemmas for one frame of `CsgrsApp::update`
-/

/-- With a drag in progress and the primary button down, the frame leaves
the rotation branch's quaternion product in the rotation field. -/
theorem update_rot_primary (s : CsgrsApp) (sb : Bool) (dx dy sc : ℝ) :
    (CsgrsApp.update s ⟨true, true, sb, ⟨dx, dy⟩, sc⟩).rotation =
      Quat.mul (Quat.mul (Quat.fromRotationY (dx * 0.01))
        (Quat.fromRotationX (dy * 0.01))) s.rotation := by
  by_cases h : (0:ℝ) < |sc| <;> simp [CsgrsApp.update, h]

/-- With a drag in progress and the primary button down, the frame leaves
the pan translation unchanged. -/
theorem update_translation_primary (s : CsgrsApp) (sb : Bool) (dx dy sc : ℝ) :
    (CsgrsApp.update s ⟨true, true, sb, ⟨dx, dy⟩, sc⟩).translation =
      s.translation := by
  by_cases h : (0:ℝ) < |sc| <;> simp [CsgrsApp.update, h]

/-- With a drag in progress and only the secondary button down, the frame
leaves the rotation unchanged. -/
theorem update_rot_secondary (s : CsgrsApp) (dd : Vec2) (sc : ℝ) :
    (CsgrsApp.update s ⟨true, false, true, dd, sc⟩).rotation = s.rotation := by
  by_cases h : (0:ℝ) < |sc| <;> simp [CsgrsApp.update, h]

/-- The zoom of a frame depends only on the scroll input and the prior zoom. -/
theorem update_zoom (s : CsgrsApp) (i : FrameInput) :
    (CsgrsApp.update s i).zoom =
      if 0 < |i.scrollDeltaY| then
        rustClamp (s.zoom * (1 + i.scrollDeltaY * 0.001)) 0.2 5.0
      else s.zoom := by
  obtain ⟨dg, pb, sb, dd, sc⟩ := i
  cases dg <;> cases pb <;> cases sb <;>
    by_cases h : (0:ℝ) < |sc| <;> simp [CsgrsApp.update, h]

/-- A frame either keeps the rotation or left-multiplies the yaw-pitch
product onto it. -/
theorem update_rot_cases (s : CsgrsApp) (i : FrameInput) :
    (CsgrsApp.update s i).rotation = s.rotation ∨
      (CsgrsApp.update s i).rotation =
        Quat.mul (Quat.mul (Quat.fromRotationY (i.dragDelta.x * 0.01))
          (Quat.fromRotationX (i.dragDelta.y * 0.01))) s.rotation := by
  obtain ⟨dg, pb, sb, dd, sc⟩ := i
  cases dg <;> cases pb <;> cases sb <;>
    by_cases h : (0:ℝ) < |sc| <;> simp [CsgrsApp.update, h]

/-- The identity quaternion is a right unit for the Hamilton product. -/
theorem Quat.mul_identity (q : Quat) : Quat.mul q Quat.identity = q := by
  obtain ⟨a, b, c, d⟩ := q
  simp only [Quat.mul, Quat.identity, Quat.mk.injEq]
  refine ⟨by ring, by ring, by ring, by ring⟩

/-!
### Invariant-step and fold lemmas
-/

/-- One frame keeps the zoom inside `[0.2, 5]` when it starts there. -/
theorem update_zoom_bounds (s : CsgrsApp) (i : FrameInput)
    (h1 : 0.2 ≤ s.zoom) (h2 : s.zoom ≤ 5) :
    0.2 ≤ (CsgrsApp.update s i).zoom ∧ (CsgrsApp.update s i).zoom ≤ 5 := by
  rw [update_zoom]
  split
  · refine ⟨le_min (le_max_right _ _) (by norm_num), le_trans (min_le_right _ _) ?_⟩
    norm_num
  · exact ⟨h1, h2⟩

/-- Folding any input sequence keeps the zoom inside `[0.2, 5]`. -/
theorem foldl_zoom_bounds (inputs : List FrameInput) :
    ∀ s : CsgrsApp, 0.2 ≤ s.zoom → s.zoom ≤ 5 →
      0.2 ≤ (inputs.foldl CsgrsApp.update s).zoom ∧
        (inputs.foldl CsgrsApp.update s).zoom ≤ 5 := by
  induction inputs with
  | nil => exact fun s h1 h2 => ⟨h1, h2⟩
  | cons i rest ih =>
    intro s h1 h2
    have h := update_zoom_bounds s i h1 h2
    exact ih _ h.1 h.2

/-- One frame keeps the rotation a unit quaternion. -/
theorem update_norm2 (s : CsgrsApp) (i : FrameInput)
    (h : s.rotation.norm2 = 1) : (CsgrsApp.update s i).rotation.norm2 = 1 := by
  rcases update_rot_cases s i with hc | hc <;> rw [hc]
  · exact h
  · rw [Quat.norm2_mul, Quat.norm2_mul, h, Quat.norm2_fromRotationY,
      Quat.norm2_fromRotationX]
    norm_num

/-- Folding any input sequence keeps the rotation a unit quaternion. -/
theorem foldl_norm2 (inputs : List FrameInput) :
    ∀ s : CsgrsApp, s.rotation.norm2 = 1 →
      (inputs.foldl CsgrsApp.update s).rotation.norm2 = 1 := by
  induction inputs with
  | nil => exact fun s h => h
  | cons i rest ih => exact fun s h => ih _ (update_norm2 s i h)

/-- Two equal yaw-only rotation steps compose to one doubled yaw step. -/
theorem yaw_double (q : Quat) (a : ℝ) :
    Quat.mul (Quat.fromRotationY a) (Quat.mul (Quat.fromRotationY a) q) =
      Quat.mul (Quat.fromRotationY (2 * a)) q := by
  rw [← Quat.mul_assoc, Quat.fromRotationY_mul]
  have h : a + a = 2 * a := by ring
  rw [h]

/-!
### The claims
-/

/-- C1: the projector computes the screen point as
`r.center + ((x', -y') * (min(r.width, r.height) * 0.25 * zoom)) + t` with
`(x', y') = (rx * s, ry * s)` and `s = 4 / (4 - rz)` for the rotated vertex
— exactly the spec's step-by-step algorithm (`specProject`), with no guard
at `rz = 4` — and at identity orientation, zero pan and zoom 1, vertex
`(-1, -1, -1)` has scale `4 / (4 - (-1)) = 0.8` and lands at screen offset
`(-0.8 * S, 0.8 * S)` for `S = min(width, height) * 0.25`. -/
theorem C1_projection_formula :
    (∀ (app : CsgrsApp) (rect : Rect) (v : Vec3),
        project app rect v = specProject app rect v) ∧
    ∀ (rect : Rect) (edges : List (Vec3 × Vec3)),
      (project (CsgrsApp.new edges) rect ⟨-1, -1, -1⟩).x =
          rect.center.x + -(0.8 * (min rect.width rect.height * 0.25)) ∧
      (project (CsgrsApp.new edges) rect ⟨-1, -1, -1⟩).y =
          rect.center.y + 0.8 * (min rect.width rect.height * 0.25) := by
  refine ⟨fun app rect v => rfl, fun rect edges => ?_⟩
  constructor <;>
    · simp [project, CsgrsApp.new, Quat.rotate, Quat.identity, Vec2.add_def]
      norm_num

/-- C2: in a frame with a drag in progress and the primary button down with
delta `(dx, dy)`, the new orientation is
`RotationY(dx * 0.01) * RotationX(dy * 0.01) * q`: the yaw-then-pitch
rotation is constructed first and left-multiplied onto the prior
orientation `q`. -/
theorem C2_rotation_update (s : CsgrsApp) (sb : Bool) (dx dy sc : ℝ) :
    (CsgrsApp.update s ⟨true, true, sb, ⟨dx, dy⟩, sc⟩).rotation =
      Quat.mul (Quat.mul (Quat.fromRotationY (dx * 0.01))
        (Quat.fromRotationX (dy * 0.01))) s.rotation :=
  update_rot_primary s sb dx dy sc

/-- C3: starting from the zoom 1.0 of `CsgrsApp::new`, every sequence of
frame updates keeps the zoom inside `[0.2, 5.0]`; a frame with nonzero
scroll replaces the zoom by `clamp(zoom * (1 + scroll * 0.001), 0.2, 5.0)`
and a frame with zero scroll leaves it unchanged. -/
theorem C3_zoom_invariant :
    (∀ (edges : List (Vec3 × Vec3)) (inputs : List FrameInput),
        0.2 ≤ (inputs.foldl CsgrsApp.update (CsgrsApp.new edges)).zoom ∧
          (inputs.foldl CsgrsApp.update (CsgrsApp.new edges)).zoom ≤ 5.0) ∧
    ∀ (s : CsgrsApp) (i : FrameInput),
      (CsgrsApp.update s i).zoom =
        if i.scrollDeltaY ≠ 0 then
          rustClamp (s.zoom * (1 + i.scrollDeltaY * 0.001)) 0.2 5.0
        else s.zoom := by
  constructor
  · intro edges inputs
    have h := foldl_zoom_bounds inputs (CsgrsApp.new edges)
      (by norm_num [CsgrsApp.new]) (by norm_num [CsgrsApp.new])
    rw [show (5.0 : ℝ) = 5 by norm_num]
    exact h
  · intro s i
    rw [update_zoom]
    by_cases h : i.scrollDeltaY = 0
    · simp [h]
    · simp [h, abs_pos.mpr h]

/-- C4: after snapping each endpoint to the 5-decimal grid and ordering
each endpoint pair, the edge set holds a canonical key exactly when some
polygon contributes it (each key therefore appearing exactly once however
many faces share it); for the icosahedron mesh built at startup, the edge
set has exactly 30 edges, each shared by exactly two of the 20 triangular
faces. -/
theorem C4_edge_dedup :
    (∀ (mesh : List (List QVec)) (k : Key × Key),
        k ∈ edgeSet mesh ↔ ∃ p ∈ mesh, ∃ e ∈ polyEdges p, canonKey e.1 e.2 = k) ∧
    (edgeSet icosaMesh).card = 30 ∧
    ((edgeSet icosaMesh).filter (fun k =>
        ((icosaMesh.map polyEdges).flatten.map
          (fun e => canonKey e.1 e.2)).count k = 2)).card = 30 := by
  refine ⟨?_, ?_, ?_⟩
  · intro mesh k
    simp only [edgeSet, List.mem_toFinset, List.mem_map, List.mem_flatten]
    aesop
  · rw [edgeSet_icosa]
    decide
  · simp only [edgeSet_icosa, icosaKeys_eval]
    decide

/-- C5: in one frame, a primary-button drag never changes the pan offset
(whatever the secondary button state, so in particular when both buttons
are down only the rotation branch runs), and a secondary-only drag never
changes the orientation: rotate and pan never both apply. -/
theorem C5_drag_exclusion (s : CsgrsApp) (dx dy sc : ℝ) (dd : Vec2) :
    (∀ sb : Bool,
        (CsgrsApp.update s ⟨true, true, sb, ⟨dx, dy⟩, sc⟩).translation =
          s.translation) ∧
    (CsgrsApp.update s ⟨true, false, true, dd, sc⟩).rotation = s.rotation ∧
    (CsgrsApp.update s ⟨true, true, true, ⟨dx, dy⟩, sc⟩).rotation =
      Quat.mul (Quat.mul (Quat.fromRotationY (dx * 0.01))
        (Quat.fromRotationX (dy * 0.01))) s.rotation :=
  ⟨fun sb => update_translation_primary s sb dx dy sc,
   update_rot_secondary s dd sc,
   update_rot_primary s true dx dy sc⟩

/-- C6: the projector is a pure function of its inputs and emits exactly
one screen segment per input edge, in the same order: the output list has
the edge list's length and its n-th entry is the projection of the n-th
edge. -/
theorem C6_projector_pointwise (app : CsgrsApp) (rect : Rect) :
    (draw_csgrs_cube rect app).length = app.edges.length ∧
    ∀ n : ℕ, (draw_csgrs_cube rect app)[n]? =
      app.edges[n]?.map
        (fun e => (project app rect e.1, project app rect e.2)) :=
  ⟨List.length_map _ _, fun _ => List.getElem?_map _ _ _⟩

/-- C7: starting from the identity orientation of `CsgrsApp::new`, the
orientation stays a unit quaternion (squared norm exactly 1 in the real
model) after every sequence of frame updates. -/
theorem C7_unit_rotation (edges : List (Vec3 × Vec3))
    (inputs : List FrameInput) :
    ((inputs.foldl CsgrsApp.update (CsgrsApp.new edges)).rotation).norm2 = 1 :=
  foldl_norm2 inputs (CsgrsApp.new edges)
    (by norm_num [CsgrsApp.new, Quat.identity, Quat.norm2])

/-- C8: a frame with no drag in progress and zero scroll delta leaves the
whole viewer state unchanged, whatever the button states. -/
theorem C8_noop_frame (s : CsgrsApp) (pb sb : Bool) (dd : Vec2) :
    CsgrsApp.update s ⟨false, pb, sb, dd, 0⟩ = s := by
  simp [CsgrsApp.update]

/-- C9: two sequential yaw-only rotation updates of equal magnitude give
the same orientation as one of double magnitude — as a quaternion identity
`RotY(a) * (RotY(a) * q) = RotY(2a) * q`, and through two actual frame
updates with drag delta `(dx, 0)` against one with `(2dx, 0)`. -/
theorem C9_yaw_doubling :
    (∀ (q : Quat) (a : ℝ),
        Quat.mul (Quat.fromRotationY a) (Quat.mul (Quat.fromRotationY a) q) =
          Quat.mul (Quat.fromRotationY (2 * a)) q) ∧
    ∀ (s : CsgrsApp) (sb : Bool) (dx sc : ℝ),
      (CsgrsApp.update (CsgrsApp.update s ⟨true, true, sb, ⟨dx, 0⟩, sc⟩)
          ⟨true, true, sb, ⟨dx, 0⟩, sc⟩).rotation =
        (CsgrsApp.update s ⟨true, true, sb, ⟨2 * dx, 0⟩, sc⟩).rotation := by
  refine ⟨yaw_double, ?_⟩
  intro s sb dx sc
  rw [update_rot_primary, update_rot_primary, update_rot_primary]
  rw [show (0 : ℝ) * 0.01 = 0 by norm_num, Quat.fromRotationX_zero,
    Quat.mul_identity, Quat.mul_identity]
  rw [show (2 * dx) * 0.01 = 2 * (dx * 0.01) by ring, ← yaw_double]

/-- C10: the derived `Default` of the app state yields zoom 0.0 — outside
the specified range `[0.2, 5.0]` and different from the specified initial
value 1.0 — with identity orientation, zero pan and an empty edge set;
the zoom initial value and range are established only by `CsgrsApp::new`,
whose zoom is 1.0 and inside the range. -/
theorem C10_default_vs_new :
    CsgrsApp.default.zoom = 0 ∧
    ¬ (0.2 ≤ CsgrsApp.default.zoom ∧ CsgrsApp.default.zoom ≤ 5.0) ∧
    CsgrsApp.default.zoom ≠ 1.0 ∧
    CsgrsApp.default.rotation = Quat.identity ∧
    CsgrsApp.default.translation = Vec2.mk 0 0 ∧
    CsgrsApp.default.edges = [] ∧
    ∀ edges : List (Vec3 × Vec3),
      (CsgrsApp.new edges).zoom = 1.0 ∧
        0.2 ≤ (CsgrsApp.new edges).zoom ∧ (CsgrsApp.new edges).zoom ≤ 5.0 := by
  norm_num [CsgrsApp.default, CsgrsApp.new]
